import Mathlib

/-!
Verification of the multi-provider image-generation orchestration core of the
repository (Next.js app in `src/`).  The definitions below are a shallow
embedding of:

* the client-side turn/branch state and its incremental reducer
  (`handleSubmit`'s success/failure merge closures and `handleVote` in the
  page component, `src/unnamed/part_000`),
* the per-branch render rule of the variant grid (same file, lines 370-383),
* the provider route handlers: `src/src/app/api/gemini-image-flash/route.ts`,
  `src/src/app/api/image-gpt/route.ts` and the flux route with the quota guard
  (`src/unnamed/part_002`).

IO collaborators (database, object storage, the upstream provider SDKs, the
system clock) are represented as explicit parameters of the embedded
functions, so every definition is a pure, executable Lean function.
-/

namespace ImageModels

/-- JS nullish coalescing `a ?? b` / `a || b` on option-typed values. -/
def coalesce {α : Type} : Option α → Option α → Option α
  | some x, _ => some x
  | none, b => b

/-- JS `String.prototype.trim`: strip leading and trailing whitespace.
(Defined over the character list so the kernel can evaluate it.) -/
def jsTrim (s : String) : String :=
  String.mk
    (((s.data.dropWhile Char.isWhitespace).reverse.dropWhile
      Char.isWhitespace).reverse)

/-- Vote on a branch: `"up" | "down"` in the `ChatMessage` variant type. -/
inductive Vote
  | up
  | down
deriving DecidableEq

/-- Message role: `"user" | "assistant"`. -/
inductive Role
  | user
  | assistant
deriving DecidableEq

/-- One provider's slot inside an assistant turn: the element type of
`ChatMessage.variants` in `src/unnamed/part_000`
(`{ label; imageUrl?; text?; vote?; durationMs?; tokens? }`). -/
@[ext] structure Variant where
  label : String
  imageUrl : Option String := none
  text : Option String := none
  vote : Option Vote := none
  durationMs : Option Int := none
  tokens : Option Nat := none
deriving DecidableEq

/-- A conversation turn: the `ChatMessage` type of `src/unnamed/part_000`
(`{ id; role; content?; imageUrl?; variants? }`). -/
@[ext] structure ChatMessage where
  id : String
  role : Role
  content : Option String := none
  imageUrl : Option String := none
  variants : Option (List Variant) := none
deriving DecidableEq

/-- The `usage` object of a provider route's JSON response. -/
structure Usage where
  inputTokens : Option Nat := none
  outputTokens : Option Nat := none
  totalTokens : Option Nat := none
deriving DecidableEq

/-- A provider route's JSON body as consumed by the client
(`ModelResponse` in `src/unnamed/part_000`). -/
structure ModelResponse where
  image : Option String := none
  url : Option String := none
  text : Option String := none
  success : Option Bool := none
  tokens : Option Nat := none
  usage : Option Usage := none
deriving DecidableEq

/-- `typeof value?.text === "string" && value.text.trim().length > 0 ? value.text
: undefined` (part_000 line 199). -/
def extractText (t : Option String) : Option String :=
  match t with
  | some s => if 0 < (jsTrim s).length then some s else none
  | none => none

/-- `typeof value?.image === "string" ? value.image : (typeof value?.url ===
"string" ? value.url : undefined)` (part_000 line 202). -/
def extractImageUrl (value : ModelResponse) : Option String :=
  match value.image with
  | some s => some s
  | none => value.url

/-- `typeof value?.tokens === 'number' ? value.tokens : (typeof
value?.usage?.totalTokens === 'number' ? value.usage.totalTokens : undefined)`
(part_000 line 204). -/
def extractTokens (value : ModelResponse) : Option Nat :=
  match value.tokens with
  | some n => some n
  | none => (value.usage.map Usage.totalTokens).getD none

/-- `Math.round(performance.now() - (startTimes[t.label] ?? performance.now()))`
(part_000 line 203), with timestamps embedded as integers. -/
def computeDurationMs (startTimes : String → Option Int) (label : String)
    (now : Int) : Int :=
  match startTimes label with
  | some s => now - s
  | none => 0

/-- Body of the success-merge updater for the turn whose id matched
(part_000 lines 199-208): update the matching variant's fields, and promote
the extracted text to turn-level `content` when the provider is `Image-GPT`. -/
def applySuccessToTurn (label : String) (value : ModelResponse)
    (startTimes : String → Option Int) (now : Int) (m : ChatMessage) :
    ChatMessage :=
  let text := extractText value.text
  let nextVariants := (m.variants.getD []).map (fun v =>
    if v.label ≠ label then v
    else { v with
      imageUrl := extractImageUrl value,
      text := text,
      durationMs := some (computeDurationMs startTimes label now),
      tokens := extractTokens value })
  let nextContent := if label = "Image-GPT" then coalesce text m.content
    else m.content
  { m with variants := some nextVariants, content := nextContent }

/-- The success-merge updater mapped over each message
(part_000 lines 197-209): messages whose id is not the assistant turn's id are
returned unchanged. -/
def mergeSuccessMsg (assistantId label : String) (value : ModelResponse)
    (startTimes : String → Option Int) (now : Int) (m : ChatMessage) :
    ChatMessage :=
  if m.id ≠ assistantId then m
  else applySuccessToTurn label value startTimes now m

/-- Body of the failure-merge updater for the turn whose id matched
(part_000 lines 214-217): store the error message as the matching variant's
text, and overwrite turn-level `content` with it when the provider is
`Image-GPT`. -/
def applyFailureToTurn (label message : String) (m : ChatMessage) :
    ChatMessage :=
  let nextVariants := (m.variants.getD []).map (fun v =>
    if v.label = label then { v with text := some message } else v)
  let nextContent := if label = "Image-GPT" then some message else m.content
  { m with variants := some nextVariants, content := nextContent }

/-- The failure-merge updater mapped over each message
(part_000 lines 213-218). -/
def mergeFailureMsg (assistantId label message : String) (m : ChatMessage) :
    ChatMessage :=
  if m.id ≠ assistantId then m
  else applyFailureToTurn label message m

/-- The vote toggle (part_000 lines 61-71): clicking the active vote clears
it, otherwise the vote is set. -/
def handleVoteMsg (messageId label : String) (vote : Vote) (m : ChatMessage) :
    ChatMessage :=
  if m.id ≠ messageId then m
  else
    let nextVariants := (m.variants.getD []).map (fun v =>
      if v.label ≠ label then v
      else { v with vote := if v.vote = some vote then none else some vote })
    { m with variants := some nextVariants }

/-- What the variant grid renders for one branch. -/
inductive BranchRender
  | hidden
  | placeholder
  | image (url : String)
deriving DecidableEq

/-- The per-branch render rule (part_000 lines 371-383): a resolved branch
without an image is hidden (`return null`), a pending branch shows the
shimmer placeholder, otherwise the image is rendered. -/
def renderVariant (v : Variant) : BranchRender :=
  let isPending := v.imageUrl.isNone && v.text.isNone
  let hasImage := v.imageUrl.isSome
  if !isPending && !hasImage then .hidden
  else if isPending then .placeholder
  else .image (v.imageUrl.getD "")

/-- The labels of a turn's branch list (empty for a turn with no variants). -/
def messageLabels (m : ChatMessage) : List String :=
  (m.variants.getD []).map Variant.label

/-! ## Submission / dispatch (part_000, `handleSubmit` lines 104-191) -/

/-- The model-selection toggles (`selectedModels` state). -/
structure SelectedModels where
  gemini : Bool
  flux : Bool
  imageGpt : Bool

/-- `selectedEntries.length`: how many models are toggled on. -/
def selectedCount (s : SelectedModels) : Nat :=
  (if s.gemini then 1 else 0) + (if s.flux then 1 else 0)
    + (if s.imageGpt then 1 else 0)

/-- The task list assembled at lines 174-177, in source order:
Image-GPT, then Gemini, then Flux-1. -/
def taskLabels (s : SelectedModels) : List String :=
  (if s.imageGpt then ["Image-GPT"] else [])
    ++ (if s.gemini then ["Gemini"] else [])
    ++ (if s.flux then ["Flux-1"] else [])

/-- How far `handleSubmit` gets before (or at) dispatch.  `noop` is the
silent early return on an empty prompt; `redirectToSignIn` the signed-out
path; `validationError` carries the messages appended so far; `dispatched`
carries the appended messages, the endpoints fetched and the task labels. -/
inductive SubmitOutcome
  | noop
  | redirectToSignIn
  | validationError (err : String) (messagesAppended : List ChatMessage)
  | dispatched (messagesAppended : List ChatMessage)
      (networkCalls : List String) (tasks : List String)
deriving DecidableEq

/-- Endpoints fetched by the submission.  Once validation passes, all three
fetches are created unconditionally (lines 153-172); the selection toggles
only decide which promises become tasks (lines 174-177). -/
def SubmitOutcome.networkCalls : SubmitOutcome → List String
  | .dispatched _ calls _ => calls
  | _ => []

/-- Task labels of the submission (empty unless dispatched). -/
def SubmitOutcome.tasks : SubmitOutcome → List String
  | .dispatched _ _ tasks => tasks
  | _ => []

/-- Messages appended to the turn list by the submission. -/
def SubmitOutcome.appendedMessages : SubmitOutcome → List ChatMessage
  | .validationError _ msgs => msgs
  | .dispatched msgs _ _ => msgs
  | _ => []

/-- The control flow of `handleSubmit` up to dispatch (lines 104-191):
empty prompt returns silently before any state change; a signed-out user is
redirected; the user message is appended; zero selected models aborts with a
validation error before any fetch is created; otherwise all three endpoint
fetches are issued, and the assistant turn is created with one empty variant
per task label. -/
def handleSubmitPlan (prompt : String) (isSignedIn : Bool)
    (s : SelectedModels) (userMsgId assistantId : String) : SubmitOutcome :=
  if jsTrim prompt = "" then .noop
  else if !isSignedIn then .redirectToSignIn
  else
    let userMessage : ChatMessage :=
      { id := userMsgId, role := .user, content := some prompt }
    if selectedCount s = 0 then
      .validationError "Select at least one model" [userMessage]
    else
      let initialVariants : List Variant :=
        (taskLabels s).map (fun l => { label := l })
      let assistantMessage : ChatMessage :=
        { id := assistantId, role := .assistant, content := none,
          variants := some initialVariants }
      .dispatched [userMessage, assistantMessage]
        ["/api/gemini-image-flash", "/api/image-gpt", "/api/flux-1"]
        (taskLabels s)

/-! ## Server-side route handlers

A route's observable result, uniformly over the three provider routes.
`exitProcess` models `process.exit(code)`; `errorJson status msg` a
`NextResponse.json({ error: msg }, { status })`; the success constructors the
three success JSON shapes sent back to the client. -/

/-- Observable result of one provider route invocation. -/
inductive ApiResponse
  | exitProcess (code : Nat)
  | errorJson (status : Nat) (error : String)
  | successImage (image : String) (text : Option String) (tokens : Option Nat)
  | successText (text : String) (tokens : Option Nat)
  | successUrl (url : Option String)
deriving DecidableEq

/-- Outcome of the quota query `db.select(...).where(userId, status =
'completed').limit(11)`: either the query returns rows (the user really has
`completedCount` completed records, of which at most 11 are returned), or it
throws. -/
inductive DbQueryResult
  | rows (completedCount : Nat)
  | threw
deriving DecidableEq

/-- The quota guard of the gemini-image-flash route (lines 34-43) and of the
flux route in part_002 (lines 24-33): `existing.length >= 10` where
`existing.length = min(completedCount, 11)` because of `.limit(11)`; a thrown
query is swallowed by the empty `catch {}`, so the guard does not reject. -/
def quotaRejects : DbQueryResult → Bool
  | .rows n => decide (10 ≤ min n 11)
  | .threw => false

/-- The 429 body shared by the guarded routes. -/
def rateLimitMessage : String :=
  "You have reached the limit of 10 image generations."

/-- Is the response the 429 rate-limit rejection? -/
def isRateLimited : ApiResponse → Bool
  | .errorJson 429 _ => true
  | _ => false

/-! ## Gemini route stream drain
(`src/src/app/api/gemini-image-flash/route.ts`, lines 93-135) -/

/-- `usageMetadata` of a stream chunk or candidate. -/
structure UsageMetadata where
  promptTokenCount : Option Nat := none
  candidatesTokenCount : Option Nat := none
  totalTokenCount : Option Nat := none
deriving DecidableEq

/-- `parts[0].inlineData` of a chunk's first candidate. -/
structure InlinePayload where
  mimeType : Option String := none
  data : Option String := none
deriving DecidableEq

/-- One chunk of the streamed Gemini response.  `hasParts` is the guard
`chunk.candidates && chunk.candidates[0]?.content?.parts` (line 107);
`chunkUsage`/`candidateUsage` are `chunk.usageMetadata` and
`chunk.candidates[0]?.usageMetadata`; `firstPartInline` is
`chunk.candidates[0].content.parts[0].inlineData`; `text` is `chunk.text`.
`uploadResult` is the outcome of the `uploadFile` call issued for this chunk
when it carries inline data: `none` models a thrown upload, `some ""` a
falsy returned url; both fall back to the data URL (lines 125-130). -/
structure StreamChunk where
  hasParts : Bool := true
  chunkUsage : Option UsageMetadata := none
  candidateUsage : Option UsageMetadata := none
  firstPartInline : Option InlinePayload := none
  text : Option String := none
  uploadResult : Option String := none
deriving DecidableEq

/-- The mutable locals of the drain loop (lines 93-99). -/
structure DrainState where
  fullText : String := ""
  savedImageUrl : Option String := none
  promptTokenCount : Option Nat := none
  candidatesTokenCount : Option Nat := none
  totalTokenCount : Option Nat := none
deriving DecidableEq

/-- Usage capture (lines 111-116): each present field overwrites the
corresponding local. -/
def updateUsage (st : DrainState) (u : UsageMetadata) : DrainState :=
  { st with
    promptTokenCount := coalesce u.promptTokenCount st.promptTokenCount,
    candidatesTokenCount :=
      coalesce u.candidatesTokenCount st.candidatesTokenCount,
    totalTokenCount := coalesce u.totalTokenCount st.totalTokenCount }

/-- The image URL a chunk with inline data produces (lines 118-130):
the storage URL when the upload returns a truthy url, the inline data URL
otherwise (`url || dataUrl`, and the data URL on a thrown upload). -/
def inlineSavedUrl (inl : InlinePayload) (uploadResult : Option String) :
    String :=
  let mimeType := inl.mimeType.getD "image/png"
  let dataUrl := "data:" ++ mimeType ++ ";base64," ++ inl.data.getD ""
  match uploadResult with
  | some u => if u = "" then dataUrl else u
  | none => dataUrl

/-- One iteration of the `for await` drain loop (lines 106-135): skip the
chunk unless it has candidate parts; capture usage; a chunk whose first part
carries inline data replaces `savedImageUrl` (and `continue`s past the text
branch); otherwise a non-empty `chunk.text` is appended to `fullText`. -/
def processChunk (st : DrainState) (c : StreamChunk) : DrainState :=
  if !c.hasParts then st
  else
    let st1 := match coalesce c.chunkUsage c.candidateUsage with
      | some u => updateUsage st u
      | none => st
    match c.firstPartInline with
    | some inl =>
      { st1 with savedImageUrl := some (inlineSavedUrl inl c.uploadResult) }
    | none =>
      match c.text with
      | some t => if 0 < t.length then { st1 with fullText := st1.fullText ++ t }
        else st1
      | none => st1

/-- Draining the whole stream. -/
def drainStream (chunks : List StreamChunk) : DrainState :=
  chunks.foldl processChunk {}

/-- The response stage of the gemini route after the stream is drained
(lines 136-173): image success, else text success when the accumulated text
is non-blank, else a 500.  (The persistence insert on success is an external
effect not reflected in the response.) -/
def geminiProviderStage (chunks : List StreamChunk) : ApiResponse :=
  let st := drainStream chunks
  match st.savedImageUrl with
  | some img =>
    .successImage img (if st.fullText = "" then none else some st.fullText)
      st.totalTokenCount
  | none =>
    if 0 < (jsTrim st.fullText).length then .successText st.fullText st.totalTokenCount
    else .errorJson 500 "No image or text was generated"

/-- The gemini-image-flash route handler
(`src/src/app/api/gemini-image-flash/route.ts`): a missing `GEMINI_API_KEY`
calls `process.exit(1)` (lines 13-17); a missing user is a 401; the quota
guard may return the 429; otherwise the stream is drained and answered.
(Prompt enhancement and input-image normalization only shape the upstream
request, which is abstracted into `chunks`.) -/
def geminiRoutePOST (apiKeyPresent : Bool) (userId : Option String)
    (dbRes : DbQueryResult) (chunks : List StreamChunk) : ApiResponse :=
  if !apiKeyPresent then .exitProcess 1
  else match userId with
  | none => .errorJson 401 "Unauthorized"
  | some _ =>
    if quotaRejects dbRes then .errorJson 429 rateLimitMessage
    else geminiProviderStage chunks

/-! ## Image-GPT route (`src/src/app/api/image-gpt/route.ts`) -/

/-- One item of the OpenAI response's `output` array as probed by the route
(lines 62-80): its `type` tag, the two shapes of `result` it probes for
(`o.result` as a string, or `o.result.b64_json`), and `text`. -/
structure OutputItem where
  type : Option String := none
  result : Option String := none
  resultB64Json : Option String := none
  text : Option String := none
deriving DecidableEq

/-- Base64 extraction from an image output item (lines 68-75):
`o.result` string shape first, then the `b64_json` fallback, else `''`. -/
def itemBase64 (o : OutputItem) : String :=
  match o.result with
  | some s => s
  | none =>
    match o.resultB64Json with
    | some s => s
    | none => ""

/-- The route's `usage` probing (lines 83-96) with its field-name fallbacks. -/
structure RawUsage where
  inputTokensField : Option Nat := none
  promptTokensField : Option Nat := none
  outputTokensField : Option Nat := none
  completionTokensField : Option Nat := none
  totalTokensField : Option Nat := none
deriving DecidableEq

/-- `rawUsage.total_tokens ?? (input + output when both present)`
where input is `input_tokens ?? prompt_tokens` and output is
`output_tokens ?? completion_tokens` (lines 90-96). -/
def totalTokensOf (u : RawUsage) : Option Nat :=
  let inputTokens := coalesce u.inputTokensField u.promptTokensField
  let outputTokens := coalesce u.outputTokensField u.completionTokensField
  coalesce u.totalTokensField
    (match inputTokens, outputTokens with
     | some i, some o => some (i + o)
     | _, _ => none)

/-- The successful upstream OpenAI response consumed by the route, together
with the outcome of the storage upload attempted for the first extracted
image (`none` models a thrown `put` or a falsy returned url, which both fall
back to the inline data URL, lines 106-111). -/
structure ImageGptUpstream where
  output : List OutputItem := []
  usage : RawUsage := {}
  uploadResult : Option String := none
deriving DecidableEq

/-- Upstream call outcome: the `try` block either completes with a response
or throws (line 151), which the route surfaces as a 500 with the message. -/
inductive UpstreamResult
  | ok (u : ImageGptUpstream)
  | threw (msg : String)
deriving DecidableEq

/-- The response dispatch of the image-gpt route (lines 114-150): image
success, else text success when the accumulated text is non-blank, else a
500 error. -/
def imageGptRespond (savedImageUrl : Option String) (fullText : String)
    (totalTokens : Option Nat) : ApiResponse :=
  match savedImageUrl with
  | some img =>
    .successImage img (if fullText = "" then none else some fullText)
      totalTokens
  | none =>
    if 0 < (jsTrim fullText).length then .successText fullText totalTokens
    else .errorJson 500 "No image or text was generated"

/-- The image-gpt route handler (`src/src/app/api/image-gpt/route.ts`).
`auth()` is called but its result is only recorded in the persistence insert,
and NO quota query exists in this route: the `userIdent` and `dbRes`
arguments are deliberately unused, mirroring the source.  A missing
`OPENAI_API_KEY` returns a 500 JSON (lines 14-18). -/
def imageGptPOST (apiKeyPresent : Bool) (userIdent : Option String)
    (dbRes : DbQueryResult) (upstream : UpstreamResult) : ApiResponse :=
  let _ := userIdent
  let _ := dbRes
  if !apiKeyPresent then
    .errorJson 500 "Server misconfiguration: missing OPENAI_API_KEY"
  else match upstream with
  | .threw msg => .errorJson 500 msg
  | .ok u =>
    let outputs := u.output
    let imageOutputs := outputs.filter
      (fun o => o.type = some "image_generation_call")
    let imageBase64List := (imageOutputs.map itemBase64).filter
      (fun s => 0 < s.length)
    let textOutputs := outputs.filter (fun o => o.type = some "output_text")
    let fullText := String.join (textOutputs.map (fun t => t.text.getD ""))
    let totalTokens := totalTokensOf u.usage
    let savedImageUrl : Option String :=
      match imageBase64List with
      | [] => none
      | b :: _ =>
        let dataUrl := "data:image/png;base64," ++ b
        some (match u.uploadResult with
              | some url => if url = "" then dataUrl else url
              | none => dataUrl)
    imageGptRespond savedImageUrl fullText totalTokens

/-! ## Flux route with quota guard (`src/unnamed/part_002`) -/

/-- One poll response body (`pollJson`, line 85): its `status` and the three
result-url fields probed on success. -/
structure FluxPollJson where
  status : Option String := none
  sample : Option String := none
  url : Option String := none
  image : Option String := none
deriving DecidableEq

/-- Outcome of one poll fetch: a non-2xx poll aborts with a 502 (line 80),
otherwise the JSON body is inspected. -/
inductive FluxPollResult
  | httpError
  | json (p : FluxPollJson)

/-- The flux route's external world: whether the submit call succeeded, the
returned polling URL, the poll responses by iteration index, and the storage
re-upload stage outcome per iteration (`some u` iff `uploadFile` ran and
returned a truthy url; every other case — no image buffer, thrown upload,
falsy url — leaves `savedImageUrl` at the original provider URL,
lines 91-139). -/
structure FluxEnv where
  submitOk : Bool := true
  pollingUrl : Option String := none
  polls : Nat → FluxPollResult := fun _ => .httpError
  uploadUrl : Nat → Option String := fun _ => none

/-- The terminal-state names accepted by the poll loop (line 87). -/
def okStatuses : List String :=
  ["Ready", "Completed", "Complete", "Success", "Succeeded"]

/-- The poll loop (lines 70-162): at most 120 iterations, index `i`,
remaining fuel counts down to the 504 timeout; a terminal ok status answers
with the (possibly re-uploaded) image URL; `Error`/`Failed` answers 500;
anything else polls again. -/
def fluxPollLoop (env : FluxEnv) : Nat → Nat → ApiResponse
  | _, 0 => .errorJson 504 "Generation timed out"
  | i, fuel + 1 =>
    match env.polls i with
    | .httpError => .errorJson 502 "BFL polling failed"
    | .json p =>
      match p.status with
      | some s =>
        if okStatuses.contains s then
          let originalImageUrl := coalesce p.sample (coalesce p.url p.image)
          .successUrl (coalesce (env.uploadUrl i) originalImageUrl)
        else if s = "Error" || s = "Failed" then
          .errorJson 500 "Generation failed"
        else fluxPollLoop env (i + 1) fuel
      | none => fluxPollLoop env (i + 1) fuel

/-- The flux route after the guard: submit, check the polling URL, poll
(lines 50-68 and the loop). -/
def fluxProviderStage (env : FluxEnv) : ApiResponse :=
  if !env.submitOk then .errorJson 502 "BFL submit failed"
  else match env.pollingUrl with
  | none => .errorJson 502 "No polling URL returned"
  | some _ => fluxPollLoop env 0 120

/-- The flux route handler of part_002: missing `BFL_API_KEY` is a 500 JSON
(lines 15-17), missing user a 401, then the same quota guard as the gemini
route (lines 24-33), then the provider stage. -/
def fluxPOST (apiKeyPresent : Bool) (userId : Option String)
    (dbRes : DbQueryResult) (env : FluxEnv) : ApiResponse :=
  if !apiKeyPresent then .errorJson 500 "Missing BFL_API_KEY"
  else match userId with
  | none => .errorJson 401 "Unauthorized"
  | some _ =>
    if quotaRejects dbRes then .errorJson 429 rateLimitMessage
    else fluxProviderStage env

/-! ## Shared helper lemmas -/

theorem list_map_self {α : Type} (l : List α) (f : α → α)
    (h : ∀ a ∈ l, f a = a) : l.map f = l := by
  induction l with
  | nil => rfl
  | cons x xs ih =>
    simp only [List.map_cons, List.cons.injEq]
    exact ⟨h x (by simp), ih (fun a ha => h a (by simp [ha]))⟩

theorem list_map_congr {α β : Type} (l : List α) (f g : α → β)
    (h : ∀ a ∈ l, f a = g a) : l.map f = l.map g := by
  induction l with
  | nil => rfl
  | cons x xs ih =>
    simp only [List.map_cons, List.cons.injEq]
    exact ⟨h x (by simp), ih (fun a ha => h a (by simp [ha]))⟩

theorem coalesce_none_right {α : Type} (a : Option α) : coalesce a none = a := by
  cases a <;> rfl

theorem coalesce_assoc {α : Type} (a b c : Option α) :
    coalesce (coalesce a b) c = coalesce a (coalesce b c) := by
  cases a <;> rfl

theorem coalesce_absorb {α : Type} (a b : Option α) :
    coalesce a (coalesce a b) = coalesce a b := by
  cases a <;> rfl

/-- A fixed example turn: an assistant turn with the single branch `Gemini`. -/
def siblingTurn : ChatMessage :=
  { id := "a1", role := .assistant, content := none,
    variants := some [{ label := "Gemini" }] }

/-! ## C1 -/

/-- C1 counterexample: merging a failure outcome for `Image-GPT` into a turn
whose only branch is `Gemini` (so the providerId matches no branch) is NOT a
no-op: the turn-level content is overwritten with the error message, because
the failure updater sets `content` whenever the label is `Image-GPT`,
irrespective of whether the branch exists (part_000 line 216). -/
theorem merge_missing_branch_not_noop_cex :
    mergeFailureMsg "a1" "Image-GPT" "Image-GPT request failed" siblingTurn
      ≠ siblingTurn
    ∧ (mergeFailureMsg "a1" "Image-GPT" "Image-GPT request failed"
        siblingTurn).content = some "Image-GPT request failed" := by
  exact ⟨by decide, rfl⟩

/-- C1 amended: merging an outcome (success or failure) whose providerId
matches no branch of the turn leaves the turn unchanged, PROVIDED the
outcome's provider is not `Image-GPT`; for an absent `Image-GPT` branch the
turn-level content can still be overwritten (see the counterexample). -/
theorem merge_missing_branch_noop_amended
    (aid label msg : String) (value : ModelResponse)
    (st : String → Option Int) (now : Int)
    (m : ChatMessage) (vs : List Variant) (hvs : m.variants = some vs)
    (habsent : ∀ v ∈ vs, v.label ≠ label) (hlab : label ≠ "Image-GPT") :
    mergeSuccessMsg aid label value st now m = m
      ∧ mergeFailureMsg aid label msg m = m := by
  constructor
  · unfold mergeSuccessMsg
    by_cases hid : m.id = aid
    · rw [if_neg (by simp [hid])]
      unfold applySuccessToTurn
      simp only [hvs, Option.getD_some, if_neg hlab]
      rw [list_map_self vs _ (fun v hv => if_pos (habsent v hv))]
      cases m
      simp_all
    · rw [if_pos hid]
  · unfold mergeFailureMsg
    by_cases hid : m.id = aid
    · rw [if_neg (by simp [hid])]
      unfold applyFailureToTurn
      simp only [hvs, Option.getD_some, if_neg hlab]
      rw [list_map_self vs _ (fun v hv => if_neg (habsent v hv))]
      cases m
      simp_all
    · rw [if_pos hid]

/-- C1 amended, witness: merging a `Flux-1` outcome into a turn whose only
branch is `Gemini` is a no-op. -/
theorem merge_missing_branch_noop_amended_witness :
    mergeSuccessMsg "a1" "Flux-1" {} (fun _ => some 0) 5 siblingTurn
      = siblingTurn
    ∧ mergeFailureMsg "a1" "Flux-1" "err" siblingTurn = siblingTurn :=
  merge_missing_branch_noop_amended "a1" "Flux-1" "err" {} (fun _ => some 0)
    5 siblingTurn [{ label := "Gemini" }] rfl (by decide) (by decide)

/-! ## C2 -/

/-- C2: merging an outcome (success or failure) for one branch passes every
sibling branch — every variant at a position whose label differs from the
outcome's label — through unchanged. -/
theorem merge_preserves_sibling_branches
    (aid label msg : String) (value : ModelResponse)
    (st : String → Option Int) (now : Int)
    (m : ChatMessage) (vs : List Variant) (hvs : m.variants = some vs)
    (j : Nat) (hj : j < vs.length)
    (hne : (vs.get ⟨j, hj⟩).label ≠ label) :
    ((mergeSuccessMsg aid label value st now m).variants.getD [])[j]?
        = some (vs.get ⟨j, hj⟩)
      ∧ ((mergeFailureMsg aid label msg m).variants.getD [])[j]?
        = some (vs.get ⟨j, hj⟩) := by
  have hbase : vs[j]? = some (vs.get ⟨j, hj⟩) := by
    rw [List.getElem?_eq_getElem hj]
    rfl
  constructor
  · unfold mergeSuccessMsg
    by_cases hid : m.id = aid
    · rw [if_neg (by simp [hid])]
      unfold applySuccessToTurn
      simp [hvs, hbase, hne]
      intro h
      exact absurd h hne
    · rw [if_pos hid, hvs]
      exact hbase
  · unfold mergeFailureMsg
    by_cases hid : m.id = aid
    · rw [if_neg (by simp [hid])]
      unfold applyFailureToTurn
      simp [hvs, hbase, hne]
      intro h
      exact absurd h hne
    · rw [if_pos hid, hvs]
      exact hbase

/-- C2 witness: a `Flux-1` outcome leaves the `Gemini` branch unchanged. -/
theorem merge_preserves_sibling_branches_witness :
    ((mergeSuccessMsg "a1" "Flux-1" {} (fun _ => some 0) 5
        siblingTurn).variants.getD [])[0]? = some { label := "Gemini" }
    ∧ ((mergeFailureMsg "a1" "Flux-1" "err" siblingTurn).variants.getD
        [])[0]? = some { label := "Gemini" } :=
  merge_preserves_sibling_branches "a1" "Flux-1" "err" {} (fun _ => some 0)
    5 siblingTurn [{ label := "Gemini" }] rfl 0 (by decide) (by decide)

/-! ## C6 -/

/-- C6 counterexample: merging the same success outcome twice is NOT the same
as merging it once, because the success updater recomputes the branch's
`durationMs` from the clock at each application (part_000 line 203): applied
at clock readings 100 and then 200, the duplicate merge overwrites
`durationMs` 100 with 200. -/
theorem merge_idempotence_cex :
    mergeSuccessMsg "a1" "Gemini" { image := some "https://img.example/x.png" }
        (fun _ => some 0) 200
        (mergeSuccessMsg "a1" "Gemini"
          { image := some "https://img.example/x.png" } (fun _ => some 0) 100
          siblingTurn)
      ≠ mergeSuccessMsg "a1" "Gemini"
          { image := some "https://img.example/x.png" } (fun _ => some 0) 100
          siblingTurn := by decide

@[simp] theorem applySuccess_id (label : String) (value : ModelResponse)
    (st : String → Option Int) (now : Int) (m : ChatMessage) :
    (applySuccessToTurn label value st now m).id = m.id := rfl

@[simp] theorem applyFailure_id (label msg : String) (m : ChatMessage) :
    (applyFailureToTurn label msg m).id = m.id := rfl

/-- Re-applying the success merge overwrites every field it sets, so a second
application at clock reading `now2` gives the same turn as a single
application at `now2`. -/
theorem mergeSuccess_absorb (aid label : String) (value : ModelResponse)
    (st : String → Option Int) (now1 now2 : Int) (m : ChatMessage) :
    mergeSuccessMsg aid label value st now2
        (mergeSuccessMsg aid label value st now1 m)
      = mergeSuccessMsg aid label value st now2 m := by
  unfold mergeSuccessMsg
  by_cases hid : m.id = aid
  · simp only [applySuccess_id, hid, ne_eq, not_true_eq_false, if_false]
    unfold applySuccessToTurn
    ext1
    · rfl
    · rfl
    · simp only []
      by_cases hig : label = "Image-GPT"
      · simp [hig, coalesce_absorb]
      · simp [hig]
    · rfl
    · simp only [Option.getD_some, List.map_map, Option.some.injEq]
      apply list_map_congr
      intro v _
      by_cases hv : v.label = label
      · simp [Function.comp, hv]
      · simp [Function.comp, hv]
  · simp [hid]

/-- The failure merge is idempotent outright: it only writes the error text
and the (label-dependent) content, neither of which depends on the previous
state of the written fields. -/
theorem mergeFailure_idem (aid label msg : String) (m : ChatMessage) :
    mergeFailureMsg aid label msg (mergeFailureMsg aid label msg m)
      = mergeFailureMsg aid label msg m := by
  unfold mergeFailureMsg
  by_cases hid : m.id = aid
  · simp only [applyFailure_id, hid, ne_eq, not_true_eq_false, if_false]
    unfold applyFailureToTurn
    ext1
    · rfl
    · rfl
    · simp only []
      by_cases hig : label = "Image-GPT"
      · simp [hig]
      · simp [hig]
    · rfl
    · simp only [Option.getD_some, List.map_map, Option.some.injEq]
      apply list_map_congr
      intro v _
      by_cases hv : v.label = label
      · simp [Function.comp, hv]
      · simp [Function.comp, hv]
  · simp [hid]

/-- C6 amended: merging the same outcome twice yields the same turn as
merging it once, PROVIDED the two applications read the same clock (the
success updater recomputes `durationMs` from `performance.now()` at each
application); the failure merge is unconditionally idempotent; and in general
a repeated success merge equals a single merge performed at the later clock
reading (every written field, `durationMs` included, is overwritten). -/
theorem merge_idempotence_amended (aid label msg : String)
    (value : ModelResponse) (st : String → Option Int)
    (now now1 now2 : Int) (m : ChatMessage) :
    mergeSuccessMsg aid label value st now
        (mergeSuccessMsg aid label value st now m)
      = mergeSuccessMsg aid label value st now m
    ∧ mergeFailureMsg aid label msg (mergeFailureMsg aid label msg m)
      = mergeFailureMsg aid label msg m
    ∧ mergeSuccessMsg aid label value st now2
        (mergeSuccessMsg aid label value st now1 m)
      = mergeSuccessMsg aid label value st now2 m :=
  ⟨mergeSuccess_absorb aid label value st now now m,
   mergeFailure_idem aid label msg m,
   mergeSuccess_absorb aid label value st now1 now2 m⟩

/-! ## C3 -/

/-- The scenario turn: an assistant turn with branches `Gemini` and
`Flux-1` (no text-centric `Image-GPT` branch). -/
def bikeTurn : ChatMessage :=
  { id := "t1", role := .assistant, content := none,
    variants := some [{ label := "Gemini" }, { label := "Flux-1" }] }

/-- The successful provider's response: an image, no text. -/
def bikeSuccess : ModelResponse := { image := some "https://img.example/bike.png" }

/-- The failed provider's error message (part_000 line 170). -/
def bikeErr : String := "Flux-1 request failed"

/-- C3 counterexample: in the two-provider scenario (Gemini succeeds with an
image, Flux-1 fails), the failed branch stores its error text, but the
variant grid HIDES it instead of showing the error text in its slot: the
render rule returns null for a resolved branch without an image
(part_000 line 373). -/
theorem failed_branch_error_text_hidden_cex :
    ((((mergeFailureMsg "t1" "Flux-1" bikeErr
          (mergeSuccessMsg "t1" "Gemini" bikeSuccess (fun _ => some 0) 100
            bikeTurn)).variants.getD [])[1]?).bind Variant.text
        = some bikeErr)
    ∧ ((((mergeFailureMsg "t1" "Flux-1" bikeErr
          (mergeSuccessMsg "t1" "Gemini" bikeSuccess (fun _ => some 0) 100
            bikeTurn)).variants.getD [])[1]?).map renderVariant
        = some .hidden) := by
  exact ⟨rfl, rfl⟩

/-- The scenario turn after Gemini's success merges first and Flux-1's
failure merges second. -/
def bikeMergedAB (st : String → Option Int) (now : Int) : ChatMessage :=
  mergeFailureMsg "t1" "Flux-1" bikeErr
    (mergeSuccessMsg "t1" "Gemini" bikeSuccess st now bikeTurn)

/-- The scenario turn with the two merges applied in the other order. -/
def bikeMergedBA (st : String → Option Int) (now : Int) : ChatMessage :=
  mergeSuccessMsg "t1" "Gemini" bikeSuccess st now
    (mergeFailureMsg "t1" "Flux-1" bikeErr bikeTurn)

/-- C3 amended: in the scenario, independent of merge order and timing, the
successful provider's image is rendered in its slot and the turn-level
content stays empty; the failed provider's branch records the error text but
is hidden from the rendered grid (a resolved branch without an image renders
nothing). -/
theorem partial_failure_scenario_amended (st : String → Option Int)
    (now : Int) :
    ((bikeMergedAB st now).content = none
      ∧ (bikeMergedBA st now).content = none)
    ∧ (((bikeMergedAB st now).variants.getD [])[0]?).map renderVariant
        = some (.image "https://img.example/bike.png")
    ∧ (((bikeMergedBA st now).variants.getD [])[0]?).map renderVariant
        = some (.image "https://img.example/bike.png")
    ∧ (((bikeMergedAB st now).variants.getD [])[1]?).bind Variant.text
        = some bikeErr
    ∧ (((bikeMergedBA st now).variants.getD [])[1]?).bind Variant.text
        = some bikeErr
    ∧ (((bikeMergedAB st now).variants.getD [])[1]?).map renderVariant
        = some .hidden
    ∧ (((bikeMergedBA st now).variants.getD [])[1]?).map renderVariant
        = some .hidden := by
  exact ⟨⟨rfl, rfl⟩, rfl, rfl, rfl, rfl, rfl, rfl⟩

/-! ## C5 -/

/-- The image URL contributed by one stream chunk: present exactly when the
chunk passes the parts guard and its first part carries inline data. -/
def chunkImage (c : StreamChunk) : Option String :=
  if c.hasParts then
    c.firstPartInline.map (fun inl => inlineSavedUrl inl c.uploadResult)
  else none

/-- Does the chunk take the text-delta branch of the drain loop? -/
def isTextChunk (c : StreamChunk) : Bool :=
  c.hasParts && c.firstPartInline.isNone
    && (match c.text with
        | some t => decide (0 < t.length)
        | none => false)

/-- The text a chunk appends to the accumulated `fullText`. -/
def chunkTextDelta (c : StreamChunk) : String :=
  if isTextChunk c then c.text.getD "" else ""

/-- The `totalTokenCount` a chunk contributes (from its usage metadata,
considering only chunks that pass the parts guard). -/
def chunkTotalTokens (c : StreamChunk) : Option Nat :=
  if c.hasParts then
    (coalesce c.chunkUsage c.candidateUsage).bind UsageMetadata.totalTokenCount
  else none

/-- The image of the LAST inline-binary chunk of the stream, if any. -/
def lastInlineImage : List StreamChunk → Option String
  | [] => none
  | c :: rest => coalesce (lastInlineImage rest) (chunkImage c)

/-- The concatenation of all text deltas in arrival order. -/
def textConcat : List StreamChunk → String
  | [] => ""
  | c :: rest => chunkTextDelta c ++ textConcat rest

/-- The `totalTokenCount` of the last chunk that carries one. -/
def lastTotalTokens : List StreamChunk → Option Nat
  | [] => none
  | c :: rest => coalesce (lastTotalTokens rest) (chunkTotalTokens c)

theorem updateUsage_savedImageUrl (st : DrainState) (u : UsageMetadata) :
    (updateUsage st u).savedImageUrl = st.savedImageUrl := rfl

theorem updateUsage_fullText (st : DrainState) (u : UsageMetadata) :
    (updateUsage st u).fullText = st.fullText := rfl

theorem processChunk_savedImageUrl (st : DrainState) (c : StreamChunk) :
    (processChunk st c).savedImageUrl
      = coalesce (chunkImage c) st.savedImageUrl := by
  unfold processChunk chunkImage
  cases hp : c.hasParts
  · simp [coalesce]
  · simp only [Bool.not_true, Bool.false_eq_true, if_false, if_true]
    cases hu : coalesce c.chunkUsage c.candidateUsage <;>
    cases hinl : c.firstPartInline <;>
    cases ht : c.text <;>
      simp [updateUsage, coalesce] <;> split <;> rfl

theorem processChunk_fullText (st : DrainState) (c : StreamChunk) :
    (processChunk st c).fullText = st.fullText ++ chunkTextDelta c := by
  unfold processChunk chunkTextDelta isTextChunk
  cases hp : c.hasParts
  · simp
  · simp only [Bool.not_true, Bool.false_eq_true, if_false, if_true]
    cases hu : coalesce c.chunkUsage c.candidateUsage <;>
    cases hinl : c.firstPartInline <;>
    cases ht : c.text <;>
      simp [updateUsage] <;> split <;> simp_all

theorem processChunk_totalTokenCount (st : DrainState) (c : StreamChunk) :
    (processChunk st c).totalTokenCount
      = coalesce (chunkTotalTokens c) st.totalTokenCount := by
  unfold processChunk chunkTotalTokens
  cases hp : c.hasParts
  · simp [coalesce]
  · simp only [Bool.not_true, Bool.false_eq_true, if_false, if_true]
    cases hu : coalesce c.chunkUsage c.candidateUsage <;>
    cases hinl : c.firstPartInline <;>
    cases ht : c.text <;>
      simp [updateUsage, coalesce] <;> split <;> rfl

theorem foldl_savedImageUrl (chunks : List StreamChunk) :
    ∀ st : DrainState, (chunks.foldl processChunk st).savedImageUrl
      = coalesce (lastInlineImage chunks) st.savedImageUrl := by
  induction chunks with
  | nil => intro st; rfl
  | cons c rest ih =>
    intro st
    simp only [List.foldl_cons, lastInlineImage]
    rw [ih, processChunk_savedImageUrl, coalesce_assoc]

theorem foldl_fullText (chunks : List StreamChunk) :
    ∀ st : DrainState, (chunks.foldl processChunk st).fullText
      = st.fullText ++ textConcat chunks := by
  induction chunks with
  | nil => intro st; simp [textConcat]
  | cons c rest ih =>
    intro st
    simp only [List.foldl_cons, textConcat]
    rw [ih, processChunk_fullText, String.append_assoc]

theorem foldl_totalTokenCount (chunks : List StreamChunk) :
    ∀ st : DrainState, (chunks.foldl processChunk st).totalTokenCount
      = coalesce (lastTotalTokens chunks) st.totalTokenCount := by
  induction chunks with
  | nil => intro st; rfl
  | cons c rest ih =>
    intro st
    simp only [List.foldl_cons, lastTotalTokens]
    rw [ih, processChunk_totalTokenCount, coalesce_assoc]

/-- C5 counterexample: for a stream with two inline-binary chunks, the gemini
route's outcome carries the image of the SECOND (last) inline chunk, not the
first: each inline chunk overwrites `savedImageUrl` (route.ts lines
117-131). -/
theorem stream_first_inline_chunk_cex :
    geminiRoutePOST true (some "user-1") (.rows 0)
        [{ firstPartInline := some { data := some "AAAA" },
           uploadResult := some "https://storage.example/a.png" },
         { firstPartInline := some { data := some "BBBB" },
           uploadResult := some "https://storage.example/b.png" }]
      = .successImage "https://storage.example/b.png" none none
    ∧ inlineSavedUrl { data := some "AAAA" }
        (some "https://storage.example/a.png")
      = "https://storage.example/a.png"
    ∧ ("https://storage.example/b.png" : String)
      ≠ "https://storage.example/a.png" := by
  exact ⟨by decide, by decide, by decide⟩

/-- C5 amended: the drained outcome carries the image produced from the LAST
inline-binary chunk (each inline chunk overwrites the previous image); its
text is the concatenation of all text deltas in arrival order; and the token
usage is taken from the last chunk that carries it. -/
theorem stream_drain_amended (chunks : List StreamChunk) :
    (drainStream chunks).savedImageUrl = lastInlineImage chunks
    ∧ (drainStream chunks).fullText = textConcat chunks
    ∧ (drainStream chunks).totalTokenCount = lastTotalTokens chunks := by
  refine ⟨?_, ?_, ?_⟩
  · rw [drainStream, foldl_savedImageUrl]
    exact coalesce_none_right _
  · rw [drainStream, foldl_fullText]
    rfl
  · rw [drainStream, foldl_totalTokenCount]
    exact coalesce_none_right _

/-! ## C4 -/

/-- The `.limit(11)` cap does not change the threshold: the guard rejects
exactly when the user's completed-record count is at least 10. -/
theorem quotaRejects_rows (n : Nat) :
    quotaRejects (.rows n) = decide (10 ≤ n) := by
  unfold quotaRejects
  exact decide_eq_decide.mpr (by omega)

/-- The post-guard stage of the gemini route never produces a 429. -/
theorem geminiProviderStage_not_rateLimited (chunks : List StreamChunk) :
    isRateLimited (geminiProviderStage chunks) = false := by
  unfold geminiProviderStage
  dsimp only
  split
  · rfl
  · split <;> rfl

/-- The flux poll loop never produces a 429, whatever the poll responses. -/
theorem fluxPollLoop_not_rateLimited (env : FluxEnv) :
    ∀ (fuel i : Nat), isRateLimited (fluxPollLoop env i fuel) = false := by
  intro fuel
  induction fuel with
  | zero => intro i; rfl
  | succ n ih =>
    intro i
    unfold fluxPollLoop
    cases env.polls i with
    | httpError => rfl
    | json p =>
      dsimp only
      cases p.status with
      | none => exact ih (i + 1)
      | some s =>
        dsimp only
        by_cases h1 : okStatuses.contains s = true
        · rw [if_pos h1]
          rfl
        · rw [if_neg h1]
          by_cases h2 : (decide (s = "Error") || decide (s = "Failed")) = true
          · rw [if_pos h2]
            rfl
          · rw [if_neg h2]
            exact ih (i + 1)

/-- The post-guard stage of the flux route never produces a 429. -/
theorem fluxProviderStage_not_rateLimited (env : FluxEnv) :
    isRateLimited (fluxProviderStage env) = false := by
  unfold fluxProviderStage
  cases env.submitOk
  · rfl
  · simp only [Bool.not_true, Bool.false_eq_true, if_false, if_true]
    cases env.pollingUrl
    · rfl
    · exact fluxPollLoop_not_rateLimited env 120 0

/-- The image-gpt route never produces a 429 at all: it has no quota guard. -/
theorem imageGpt_not_rateLimited (apiKeyPresent : Bool)
    (userIdent : Option String) (dbRes : DbQueryResult)
    (up : UpstreamResult) :
    isRateLimited (imageGptPOST apiKeyPresent userIdent dbRes up) = false := by
  have hresp : ∀ (s : Option String) (f : String) (t : Option Nat),
      isRateLimited (imageGptRespond s f t) = false := by
    intro s f t
    unfold imageGptRespond
    cases s
    · dsimp only
      split <;> rfl
    · rfl
  unfold imageGptPOST
  cases apiKeyPresent
  · rfl
  · cases up with
    | threw msg => rfl
    | ok u => exact hresp _ _ _

/-- C4 counterexample: a user with exactly 10 completed generation records is
NOT rejected by the image-gpt provider route — that route performs no quota
check, so the request proceeds to the provider and succeeds. -/
theorem quota_not_enforced_on_image_gpt_cex :
    imageGptPOST true (some "user-1") (.rows 10)
        (.ok { output := [{ type := some "image_generation_call",
                            result := some "Qk0=" }],
               uploadResult := some "https://storage.example/g.png" })
      = .successImage "https://storage.example/g.png" none none
    ∧ isRateLimited (imageGptPOST true (some "user-1") (.rows 10)
        (.ok { output := [{ type := some "image_generation_call",
                            result := some "Qk0=" }],
               uploadResult := some "https://storage.example/g.png" }))
      = false := by
  exact ⟨by decide, by decide⟩

/-- C4 amended: the gemini-image-flash and flux routes count the user's
completed records (capped at 11 rows) and reject with the 429 rate-limit
error exactly when the count is at least 10 — so 9 is allowed, 10 and 11 are
rejected; the image-gpt route performs no quota check and never rejects with
a rate-limit error. -/
theorem quota_threshold_amended (uid : String) (n : Nat)
    (chunks : List StreamChunk) (env : FluxEnv)
    (userIdent : Option String) (dbRes : DbQueryResult)
    (up : UpstreamResult) :
    isRateLimited (geminiRoutePOST true (some uid) (.rows n) chunks)
      = decide (10 ≤ n)
    ∧ isRateLimited (fluxPOST true (some uid) (.rows n) env)
      = decide (10 ≤ n)
    ∧ isRateLimited (imageGptPOST true userIdent dbRes up) = false := by
  refine ⟨?_, ?_, imageGpt_not_rateLimited true userIdent dbRes up⟩
  · show isRateLimited
      (if quotaRejects (.rows n) then .errorJson 429 rateLimitMessage
       else geminiProviderStage chunks) = decide (10 ≤ n)
    rw [quotaRejects_rows]
    by_cases h : 10 ≤ n
    · simp [h, isRateLimited]
    · simp [h, geminiProviderStage_not_rateLimited]
  · show isRateLimited
      (if quotaRejects (.rows n) then .errorJson 429 rateLimitMessage
       else fluxProviderStage env) = decide (10 ≤ n)
    rw [quotaRejects_rows]
    by_cases h : 10 ≤ n
    · simp [h, isRateLimited]
    · simp [h, fluxProviderStage_not_rateLimited]

/-! ## C8 -/

/-- C8: the code contradicts the spec for the gemini route.  When
`GEMINI_API_KEY` is absent the gemini-image-flash route calls
`process.exit(1)` — terminating the whole server process — instead of
returning a 500-equivalent error response; the result is independent of the
upstream stream, so the provider is indeed never contacted.  The image-gpt
and flux routes DO return the 500 JSON the spec describes. -/
theorem missing_api_key_behavior (userId : Option String)
    (dbRes : DbQueryResult) (chunks1 chunks2 : List StreamChunk)
    (userIdent : Option String) (db2 : DbQueryResult) (up : UpstreamResult)
    (uid3 : Option String) (db3 : DbQueryResult) (env : FluxEnv) :
    geminiRoutePOST false userId dbRes chunks1 = .exitProcess 1
    ∧ geminiRoutePOST false userId dbRes chunks1
      = geminiRoutePOST false userId dbRes chunks2
    ∧ imageGptPOST false userIdent db2 up
      = .errorJson 500 "Server misconfiguration: missing OPENAI_API_KEY"
    ∧ fluxPOST false uid3 db3 env = .errorJson 500 "Missing BFL_API_KEY" := by
  exact ⟨rfl, rfl, rfl, rfl⟩

/-! ## C10 -/

/-- C10: when the quota-count query throws, the empty `catch {}` swallows the
error, the guard does not reject, and the request proceeds to the provider
stage (fail-open): a persistence outage disables the quota ceiling. -/
theorem quota_guard_fail_open (uid : String) (chunks : List StreamChunk)
    (env : FluxEnv) :
    quotaRejects .threw = false
    ∧ geminiRoutePOST true (some uid) .threw chunks
      = geminiProviderStage chunks
    ∧ fluxPOST true (some uid) .threw env = fluxProviderStage env := by
  exact ⟨rfl, rfl, rfl⟩

/-! ## C7 -/

/-- C7: a submission with a blank prompt returns before anything happens (no
messages, no network calls, no tasks); a submission with zero selected
models appends only the user's own message and aborts with the validation
error before any fetch is created. -/
theorem validation_rejected_before_dispatch (prompt : String)
    (s : SelectedModels) (uid aid : String) :
    (jsTrim prompt = "" → ∀ signedIn : Bool,
      handleSubmitPlan prompt signedIn s uid aid = .noop
      ∧ (handleSubmitPlan prompt signedIn s uid aid).networkCalls = []
      ∧ (handleSubmitPlan prompt signedIn s uid aid).tasks = []
      ∧ (handleSubmitPlan prompt signedIn s uid aid).appendedMessages = [])
    ∧ (jsTrim prompt ≠ "" → selectedCount s = 0 →
      handleSubmitPlan prompt true s uid aid
        = .validationError "Select at least one model"
            [{ id := uid, role := .user, content := some prompt }]
      ∧ (handleSubmitPlan prompt true s uid aid).networkCalls = []
      ∧ (handleSubmitPlan prompt true s uid aid).tasks = []
      ∧ (handleSubmitPlan prompt true s uid aid).appendedMessages
        = [{ id := uid, role := .user, content := some prompt }]) := by
  constructor
  · intro h signedIn
    simp [handleSubmitPlan, h, SubmitOutcome.networkCalls,
      SubmitOutcome.tasks, SubmitOutcome.appendedMessages]
  · intro h1 h2
    simp [handleSubmitPlan, h1, h2, SubmitOutcome.networkCalls,
      SubmitOutcome.tasks, SubmitOutcome.appendedMessages]

/-- C7 witness: a whitespace prompt is a silent no-op; a non-empty prompt
with all three models deselected yields the validation error with only the
user message appended. -/
theorem validation_rejected_before_dispatch_witness :
    handleSubmitPlan " " true ⟨true, true, true⟩ "u1" "a1" = .noop
    ∧ handleSubmitPlan "hi" true ⟨false, false, false⟩ "u1" "a1"
        = .validationError "Select at least one model"
            [{ id := "u1", role := .user, content := some "hi" }] :=
  ⟨((validation_rejected_before_dispatch " " ⟨true, true, true⟩ "u1"
      "a1").1 (by decide) true).1,
   ((validation_rejected_before_dispatch "hi" ⟨false, false, false⟩ "u1"
      "a1").2 (by decide) (by decide)).1⟩

/-! ## C9 -/

/-- The task list has exactly one entry per selected model. -/
theorem taskLabels_length (s : SelectedModels) :
    (taskLabels s).length = selectedCount s := by
  rcases s with ⟨g, f, i⟩
  cases g <;> cases f <;> cases i <;> rfl

/-- Mapping a label-preserving function over a turn's variants preserves the
label sequence. -/
theorem labels_map_preserving (vs : List Variant) (f : Variant → Variant)
    (hf : ∀ v, (f v).label = v.label) :
    (vs.map f).map Variant.label = vs.map Variant.label := by
  rw [List.map_map]
  exact list_map_congr vs _ _ (fun v _ => hf v)

theorem messageLabels_mergeSuccess (aid label : String)
    (value : ModelResponse) (st : String → Option Int) (now : Int)
    (m : ChatMessage) :
    messageLabels (mergeSuccessMsg aid label value st now m)
      = messageLabels m := by
  unfold mergeSuccessMsg
  by_cases hid : m.id = aid
  · rw [if_neg (not_not_intro hid)]
    unfold applySuccessToTurn messageLabels
    simp only [Option.getD_some]
    apply labels_map_preserving
    intro v
    by_cases hv : v.label = label <;> simp [hv]
  · rw [if_pos hid]

theorem messageLabels_mergeFailure (aid label msg : String)
    (m : ChatMessage) :
    messageLabels (mergeFailureMsg aid label msg m) = messageLabels m := by
  unfold mergeFailureMsg
  by_cases hid : m.id = aid
  · rw [if_neg (not_not_intro hid)]
    unfold applyFailureToTurn messageLabels
    simp only [Option.getD_some]
    apply labels_map_preserving
    intro v
    by_cases hv : v.label = label <;> simp [hv]
  · rw [if_pos hid]

theorem messageLabels_handleVote (mid label : String) (voteV : Vote)
    (m : ChatMessage) :
    messageLabels (handleVoteMsg mid label voteV m) = messageLabels m := by
  unfold handleVoteMsg
  by_cases hid : m.id = mid
  · rw [if_neg (not_not_intro hid)]
    unfold messageLabels
    simp only [Option.getD_some]
    apply labels_map_preserving
    intro v
    by_cases hv : v.label = label <;> simp [hv]
  · rw [if_pos hid]

/-- C9: a dispatched submission appends the user message (no branches) and
an assistant turn whose branch labels are exactly the task labels, one per
selected model; and no merge (success or failure) and no vote changes a
turn's branch-label sequence (hence neither the branch count nor the
order). -/
theorem branch_list_invariant (prompt : String) (s : SelectedModels)
    (uid aid : String) (h1 : jsTrim prompt ≠ "")
    (h2 : selectedCount s ≠ 0) (aidm label msg : String)
    (value : ModelResponse) (st : String → Option Int) (now : Int)
    (voteV : Vote) (m : ChatMessage) :
    (handleSubmitPlan prompt true s uid aid).appendedMessages.map
        messageLabels = [[], taskLabels s]
    ∧ (handleSubmitPlan prompt true s uid aid).tasks = taskLabels s
    ∧ (taskLabels s).length = selectedCount s
    ∧ messageLabels (mergeSuccessMsg aidm label value st now m)
      = messageLabels m
    ∧ messageLabels (mergeFailureMsg aidm label msg m) = messageLabels m
    ∧ messageLabels (handleVoteMsg aidm label voteV m) = messageLabels m := by
  refine ⟨?_, ?_, taskLabels_length s,
    messageLabels_mergeSuccess aidm label value st now m,
    messageLabels_mergeFailure aidm label msg m,
    messageLabels_handleVote aidm label voteV m⟩
  · simp only [handleSubmitPlan, if_neg h1, Bool.not_true,
      Bool.false_eq_true, if_false, if_neg h2, SubmitOutcome.appendedMessages,
      List.map_cons, List.map_nil, messageLabels, Option.getD_some,
      List.map_map]
    refine congrArg₂ _ rfl (congrArg₂ _ ?_ rfl)
    exact list_map_self (taskLabels s) _ (fun a _ => rfl)
  · simp [handleSubmitPlan, h1, h2, SubmitOutcome.tasks]

/-- C9 witness: with all three models selected, the assistant turn is created
with the three branch labels, and a merge and a vote leave an example turn's
labels unchanged. -/
theorem branch_list_invariant_witness :
    (handleSubmitPlan "hi" true ⟨true, true, true⟩ "u1" "a1").appendedMessages.map
        messageLabels = [[], taskLabels ⟨true, true, true⟩]
    ∧ (handleSubmitPlan "hi" true ⟨true, true, true⟩ "u1" "a1").tasks
      = taskLabels ⟨true, true, true⟩
    ∧ (taskLabels ⟨true, true, true⟩).length
      = selectedCount ⟨true, true, true⟩
    ∧ messageLabels (mergeSuccessMsg "a1" "Gemini" {} (fun _ => some 0) 5
        siblingTurn) = messageLabels siblingTurn
    ∧ messageLabels (mergeFailureMsg "a1" "Gemini" "err" siblingTurn)
      = messageLabels siblingTurn
    ∧ messageLabels (handleVoteMsg "a1" "Gemini" .up siblingTurn)
      = messageLabels siblingTurn :=
  branch_list_invariant "hi" ⟨true, true, true⟩ "u1" "a1" (by decide)
    (by decide) "a1" "Gemini" "err" {} (fun _ => some 0) 5 .up siblingTurn

end ImageModels
